import Mathlib

set_option maxRecDepth 100000

/-!
Shallow embedding of the Strava dashboard pipeline (`src/app.py`).

Numbers are modelled as exact rationals (`ℚ`); a pandas cell that may be
NaN is `Option ℚ`, a datetime cell that may be NaT is `Option Date`.
Python's `round` (banker's rounding, ties to even) is `roundHalfEven`,
`int()` truncation toward zero is `pyTrunc`, `//` and `%` on integers with
a positive divisor are `Int.ediv` / `Int.emod`.
-/

/-- Python `round(q)`: nearest integer, ties to even (banker's rounding). -/
def roundHalfEven (q : ℚ) : ℤ :=
  let f : ℤ := ⌊q⌋
  let r : ℚ := q - f
  if r < 1/2 then f
  else if 1/2 < r then f + 1
  else if f % 2 = 0 then f else f + 1

/-- Python `round(q, 1)`: rounding to one decimal place, ties to even. -/
def pythonRound1 (q : ℚ) : ℚ := (roundHalfEven (q * 10) : ℚ) / 10

/-- Python `int(q)`: truncation toward zero. -/
def pyTrunc (q : ℚ) : ℤ := if q < 0 then -⌊-q⌋ else ⌊q⌋

/-- Python `f"{n:02d}"`: decimal rendering padded to width 2 with zeros. -/
def pad2 (n : ℤ) : String :=
  if 0 ≤ n ∧ n < 10 then "0" ++ toString n else toString n

/-- `format_pace_minutes` of `src/app.py` (lines 34-41): `None`/NaN or `0`
render as "N/A"; otherwise the pace is rounded to one decimal, the integer
part is split off with `int()` and the fractional minute is converted to
seconds with Python `round`. -/
def format_pace_minutes (pace_min : Option ℚ) : String :=
  match pace_min with
  | none => "N/A"
  | some p =>
    if p = 0 then "N/A"
    else
      let p1 := pythonRound1 p
      let mins := pyTrunc p1
      let secs := roundHalfEven ((p1 - (mins : ℚ)) * 60)
      toString mins ++ ":" ++ pad2 secs

/-- `format_minutes_hms` of `src/app.py` (lines 43-52): `None`/NaN or `0`
render as "0:00:00"; otherwise the minutes are rounded to one decimal,
converted to whole seconds with `int()`, and decomposed with `//` and `%`. -/
def format_minutes_hms (total_min : Option ℚ) : String :=
  match total_min with
  | none => "0:00:00"
  | some m =>
    if m = 0 then "0:00:00"
    else
      let m1 := pythonRound1 m
      let total_seconds := pyTrunc (m1 * 60)
      let hrs := total_seconds / 3600
      let mins := total_seconds % 3600 / 60
      let secs := total_seconds % 60
      toString hrs ++ ":" ++ pad2 mins ++ ":" ++ pad2 secs

/-- `categorize_distance` of `src/app.py` (lines 54-63). -/
def categorize_distance (distance_km : ℚ) : String :=
  if distance_km < 5 then "Treino leve (< 5km)"
  else if distance_km < 10 then "Curta (5-10km)"
  else if distance_km < 21 then "Médio (10-21km)"
  else "Meia maratona (> 21km)"

/-- A parsed calendar date (the result of `pd.to_datetime`); a cell that
failed to parse is `none` (NaT). -/
structure Date where
  year : ℕ
  month : ℕ
  day : ℕ
deriving DecidableEq

/-- One row of the raw input table. A field is `none` when the cell is
NaN/NaT; whether the COLUMN exists at all is recorded in `RawTable`. -/
structure RawRow where
  date : Option Date
  start_date : Option Date
  start_date_local : Option Date
  distance_km : Option ℚ
  distance : Option ℚ
  duration_min : Option ℚ
  moving_time : Option ℚ
  elapsed_time : Option ℚ
  duration : Option ℚ
deriving DecidableEq

/-- The raw input table: its rows plus which columns are present. -/
structure RawTable where
  rows : List RawRow
  hasDate : Bool
  hasStartDate : Bool
  hasStartDateLocal : Bool
  hasDistanceKm : Bool
  hasDistance : Bool
  hasDurationMin : Bool
  hasMovingTime : Bool
  hasElapsedTime : Bool
  hasDuration : Bool
deriving DecidableEq

/-- A row of the normalized table (canonical columns `date`, `distance_km`,
`duration_min`). -/
structure NormRow where
  date : Option Date
  distance_km : Option ℚ
  duration_min : Option ℚ
deriving DecidableEq

/-- The normalized table; `hasDist`/`hasDur` record whether the canonical
`distance_km`/`duration_min` columns could be derived at all. -/
structure NormTable where
  rows : List NormRow
  hasDist : Bool
  hasDur : Bool
deriving DecidableEq

/-- Date-column selection of `src/app.py` lines 206-214: the first present
of `date`, `start_date`, `start_date_local`; `none` when no date-like
column exists (the script halts there). -/
def pickDate (t : RawTable) : Option (RawRow → Option Date) :=
  if t.hasDate then some RawRow.date
  else if t.hasStartDate then some RawRow.start_date
  else if t.hasStartDateLocal then some RawRow.start_date_local
  else none

/-- Column normalization of `src/app.py` lines 204-241: pick the date
column, derive `distance_km` from `distance` (meters / 1000) when absent,
and `duration_min` from the first present of `moving_time`, `elapsed_time`,
`duration` (seconds / 60) when absent.  Fails with the "no date column"
condition when no date-like column exists. -/
def normalizeColumns (t : RawTable) : Except String NormTable :=
  match pickDate t with
  | none => Except.error "no date column"
  | some getDate =>
    let distCell : RawRow → Option ℚ := fun r =>
      if t.hasDistanceKm then r.distance_km
      else if t.hasDistance then r.distance.map (fun v => v / 1000)
      else none
    let durCell : RawRow → Option ℚ := fun r =>
      if t.hasDurationMin then r.duration_min
      else if t.hasMovingTime then r.moving_time.map (fun v => v / 60)
      else if t.hasElapsedTime then r.elapsed_time.map (fun v => v / 60)
      else if t.hasDuration then r.duration.map (fun v => v / 60)
      else none
    Except.ok
      ⟨t.rows.map (fun r => ⟨getDate r, distCell r, durCell r⟩),
       t.hasDistanceKm || t.hasDistance,
       t.hasDurationMin || t.hasMovingTime || t.hasElapsedTime || t.hasDuration⟩

/-- `df.dropna(subset=['date'])` keeps the rows whose date parsed. -/
def validRowDate (r : NormRow) : Bool := r.date.isSome

/-- `df[df[col] > 0]`: a NaN cell compares as not-greater, so it is
dropped. -/
def posCell (c : Option ℚ) : Bool :=
  match c with
  | some v => decide (0 < v)
  | none => false

/-- Validity filter of `src/app.py` lines 243-248: drop rows with a missing
date; when the `distance_km` column exists drop rows with `distance_km ≤ 0`
(or NaN); when the `duration_min` column exists drop rows with
`duration_min ≤ 0` (or NaN). -/
def validate (t : NormTable) : NormTable :=
  let r1 := t.rows.filter validRowDate
  let r2 := if t.hasDist then r1.filter (fun r => posCell r.distance_km) else r1
  let r3 := if t.hasDur then r2.filter (fun r => posCell r.duration_min) else r2
  ⟨r3, t.hasDist, t.hasDur⟩

/-- Digit string to number, as Python `int` reads the digits. -/
def digitsToNat (l : List Char) : ℕ :=
  l.foldl (fun a c => 10 * a + (c.toNat - 48)) 0

/-- Python `int(s)` on a character list: an optional sign followed by at
least one digit; anything else raises (here: `none`). -/
def pyParseIntChars (l : List Char) : Option ℤ :=
  if l ≠ [] ∧ l.all Char.isDigit then some (digitsToNat l : ℤ) else none

/-- Python `int(s)`: parse an optionally signed decimal string, `none` when
the string is not a valid integer literal (a `ValueError` in the script). -/
def pyParseInt (s : String) : Option ℤ :=
  match s.toList with
  | '-' :: rest => (pyParseIntChars rest).map Int.neg
  | '+' :: rest => pyParseIntChars rest
  | l => pyParseIntChars l

/-- The characters before the first occurrence of the separator " - ",
i.e. Python `s.split(" - ")[0]`. -/
def upToSep : List Char → List Char
  | ' ' :: '-' :: ' ' :: _ => []
  | c :: rest => c :: upToSep rest
  | [] => []

/-- The month-selector prefix: `selected_month_raw.split(" - ")[0]` of
`src/app.py` line 296 (the selector renders months as "MM - name"). -/
def monthField (s : String) : String := String.mk (upToSep s.toList)

/-- `df_filtered["date"].dt.year == y`: NaT yields False. -/
def yearEqB (r : NormRow) (y : ℤ) : Bool :=
  match r.date with
  | some d => decide ((d.year : ℤ) = y)
  | none => false

/-- `df_filtered["date"].dt.month == m`: NaT yields False. -/
def monthEqB (r : NormRow) (m : ℤ) : Bool :=
  match r.date with
  | some d => decide ((d.month : ℤ) = m)
  | none => false

/-- `df_filtered["date"].dt.day == d`: NaT yields False. -/
def dayEqB (r : NormRow) (d : ℤ) : Bool :=
  match r.date with
  | some dt => decide ((dt.day : ℤ) = d)
  | none => false

/-- Year filter of `src/app.py` lines 291-292: pass-through on "Todos",
otherwise keep the rows whose year equals `int(selected_year)`; a failed
parse raises (modelled as `Except.error`). -/
def yearStep (sy : String) (df : List NormRow) : Except Unit (List NormRow) :=
  if sy = "Todos" then Except.ok df
  else
    match pyParseInt sy with
    | some y => Except.ok (df.filter (fun r => yearEqB r y))
    | none => Except.error ()

/-- Month filter of `src/app.py` lines 295-297: pass-through on "Todos",
otherwise keep the rows whose month equals
`int(selected_month_raw.split(" - ")[0])`. -/
def monthStep (sm : String) (df : List NormRow) : Except Unit (List NormRow) :=
  if sm = "Todos" then Except.ok df
  else
    match pyParseInt (monthField sm) with
    | some m => Except.ok (df.filter (fun r => monthEqB r m))
    | none => Except.error ()

/-- Day filter of `src/app.py` lines 300-301: pass-through on "Todos",
otherwise keep the rows whose day equals `int(selected_day)`. -/
def dayStep (sd : String) (df : List NormRow) : Except Unit (List NormRow) :=
  if sd = "Todos" then Except.ok df
  else
    match pyParseInt sd with
    | some d => Except.ok (df.filter (fun r => dayEqB r d))
    | none => Except.error ()

/-- The body of the `try:` block of `src/app.py` lines 289-301: the three
selector filters applied in sequence, stopping at the first raise. -/
def windowSteps (df : List NormRow) (sy sm sd : String) :
    Except Unit (List NormRow) :=
  (yearStep sy df).bind (fun d1 => (monthStep sm d1).bind (dayStep sd))

/-- `df_filtered` of `src/app.py` lines 285-304: the windowed subset; on
any exception the `except` arm falls back to `df.copy()` — the FULL
validated collection, not the partially filtered one. -/
def df_filtered (df : List NormRow) (sy sm sd : String) : List NormRow :=
  match windowSteps df sy sm sd with
  | Except.ok r => r
  | Except.error _ => df

/-- `pd.to_numeric(...).fillna(0)`: a NaN cell becomes 0. -/
def fillna0 (c : Option ℚ) : ℚ := c.getD 0

/-- Lines 113-121 of `pace_by_category`: per row, the distance category and
the per-row pace `duration_min / distance_km` rounded to one decimal
(pandas `.round(1)`, ties to even); rows with zero distance get NA. -/
def taggedPaces (rows : List NormRow) : List (String × Option ℚ) :=
  rows.map (fun r =>
    let d := fillna0 r.distance_km
    let m := fillna0 r.duration_min
    (categorize_distance d, if 0 < d then some (pythonRound1 (m / d)) else none))

/-- The non-NA per-row paces of one category group. -/
def catPaceList (rows : List NormRow) (c : String) : List ℚ :=
  (taggedPaces rows).filterMap (fun t => if t.1 = c then t.2 else none)

/-- `groupby("category")["pace_min_km"].mean()` for one group: the
arithmetic mean of the group's non-NA per-row paces, NA when the group has
none. -/
def catMean (rows : List NormRow) (c : String) : Option ℚ :=
  let ps := catPaceList rows c
  if ps.isEmpty then none else some (ps.sum / (ps.length : ℚ))

/-- Code-point order on character lists (how Python compares strings). -/
def charsLe : List Char → List Char → Bool
  | [], _ => true
  | _ :: _, [] => false
  | a :: as, b :: bs =>
    if a.toNat < b.toNat then true
    else if b.toNat < a.toNat then false
    else charsLe as bs

/-- Python/pandas string order, used by `groupby` to sort the keys. -/
def strLeB (a b : String) : Bool := charsLe a.toList b.toList

/-- `sort_values("pace_min_km")` order: ascending on the pace, NaN last. -/
def paceCellLe (a b : String × Option ℚ) : Bool :=
  match a.2, b.2 with
  | some x, some y => decide (x ≤ y)
  | some _, none => true
  | none, none => true
  | none, some _ => false

/-- `groupby("category")["pace_min_km"].mean()` as a list: one entry per
distinct category present, keys in sorted order. -/
def groupedCatPace (rows : List NormRow) : List (String × Option ℚ) :=
  ((((taggedPaces rows).map Prod.fst).dedup).insertionSort
    (fun a b => strLeB a b = true)).map (fun c => (c, catMean rows c))

/-- `cat_pace.sort_values("pace_min_km")`: ascending by pace, NA last. -/
def sortedCatPace (rows : List NormRow) : List (String × Option ℚ) :=
  (groupedCatPace rows).insertionSort (fun a b => paceCellLe a b = true)

/-- `cat_pace.dropna(subset=["pace_min_km"])`: the NA groups are dropped. -/
def finalCatPace (rows : List NormRow) : List (String × ℚ) :=
  (sortedCatPace rows).filterMap (fun p => p.2.map (fun v => (p.1, v)))

/-- `pace_by_category` of `src/app.py` lines 108-134: `None` on an empty
input, else the per-category MEAN of the per-row paces (each rounded to one
decimal), grouped by category (keys sorted), sorted ascending by pace, with
NA groups dropped; `None` when no group has a valid pace. -/
def pace_by_category (rows : List NormRow) : Option (List (String × ℚ)) :=
  if rows.isEmpty then none
  else if (finalCatPace rows).isEmpty then none
  else some (finalCatPace rows)

/-- The four headline KPI values of `render_kpis` (lines 312-337), as
displayed: activity count, total distance, total duration in hours, and
the formatted mean pace. -/
structure KPIs where
  total_acts : ℕ
  total_dist : Option ℚ
  total_dur_hours : Option ℚ
  pace_display : String
deriving DecidableEq

/-- `df_kpi["distance_km"].sum()`: pandas sum skips NaN cells. -/
def sumDist (rows : List NormRow) : ℚ := (rows.filterMap NormRow.distance_km).sum

/-- `df_kpi["duration_min"].sum()`: pandas sum skips NaN cells. -/
def sumDur (rows : List NormRow) : ℚ := (rows.filterMap NormRow.duration_min).sum

/-- `render_kpis` of `src/app.py` lines 312-337.  `first_date` (line 317)
evaluates `df_kpi["date"].min().strftime(...)`, which raises a
`ValueError` when the minimum is NaT — i.e. when no row has a date; the
uncaught exception aborts the render (`Except.error`).  Otherwise the
displayed KPIs are the count, the one-decimal rounded distance sum and
duration-hours sum (`None` → "N/A" when a column is missing), and the mean
pace `sum(duration_min)/sum(distance_km)` rounded to one decimal and
formatted, "N/A" when a column is missing or the distance sum is not
positive. -/
def render_kpis (t : NormTable) : Except String KPIs :=
  let total_acts := t.rows.length
  let total_dist := if t.hasDist then some (pythonRound1 (sumDist t.rows)) else none
  let total_dur_hours :=
    if t.hasDur then some (pythonRound1 (sumDur t.rows / 60)) else none
  match t.rows.filterMap NormRow.date with
  | [] => Except.error "NaTType does not support strftime"
  | _ :: _ =>
    let avg_pace : Option ℚ :=
      if t.hasDur && t.hasDist && decide (0 < sumDist t.rows)
      then some (pythonRound1 (sumDur t.rows / sumDist t.rows))
      else none
    let pace_display :=
      match avg_pace with
      | some p => format_pace_minutes (some p)
      | none => "N/A"
    Except.ok ⟨total_acts, total_dist, total_dur_hours, pace_display⟩

/-- How one run of the script ends, for the stages the claims are about. -/
inductive RenderOutcome where
  | noData : RenderOutcome
  | noDateColumn : RenderOutcome
  | emptyAfterValidation : RenderOutcome
  | renderError : String → RenderOutcome
  | rendered : KPIs → List NormRow → RenderOutcome
deriving DecidableEq

/-- The script's main flow over a loaded table (`src/app.py` lines
200-354): halt on an empty load, normalize (halting when no date column
exists), validate (halting when nothing valid remains), apply the
year/month/day window, then render the KPIs on the windowed subset.  There
is no empty-selection check between the window filter and `render_kpis`. -/
def appRun (t : RawTable) (sy sm sd : String) : RenderOutcome :=
  if t.rows.isEmpty then RenderOutcome.noData
  else
    match normalizeColumns t with
    | Except.error _ => RenderOutcome.noDateColumn
    | Except.ok nt =>
      let vt := validate nt
      if vt.rows.isEmpty then RenderOutcome.emptyAfterValidation
      else
        let dff := df_filtered vt.rows sy sm sd
        match render_kpis ⟨dff, vt.hasDist, vt.hasDur⟩ with
        | Except.error e => RenderOutcome.renderError e
        | Except.ok k => RenderOutcome.rendered k dff


deriving instance DecidableEq for Except

/-- The spec's normalization scenario: two raw activities with columns
`date`, `distance` (meters) and `moving_time` (seconds), the second with
zero distance. -/
def scenarioTable : RawTable :=
  ⟨[⟨some ⟨2024, 3, 1⟩, none, none, none, some 5000, none, some 1800, none, none⟩,
    ⟨some ⟨2024, 3, 5⟩, none, none, none, some 0, none, some 600, none, none⟩],
   true, false, false, false, true, false, true, false, false⟩

/-- Two valid activities in the same distance category (5 km in 50 min and
8 km in 8 min), with very different per-row paces. -/
def paceRows : List NormRow :=
  [⟨some ⟨2024, 1, 1⟩, some 5, some 50⟩, ⟨some ⟨2024, 1, 2⟩, some 8, some 8⟩]

/-- A table holding one valid activity dated 2024-03-01, with canonical
columns already present. -/
def marchTable : RawTable :=
  ⟨[⟨some ⟨2024, 3, 1⟩, none, none, some 10, none, some 60, none, none, none⟩],
   true, false, false, true, false, true, false, false, false⟩

/-- Two valid activities of 1.23 km each: the distance sum 2.46 is not
representable after one-decimal rounding. -/
def kpiRows : List NormRow :=
  [⟨some ⟨2024, 1, 1⟩, some (123/100), some 30⟩,
   ⟨some ⟨2024, 1, 2⟩, some (123/100), some 30⟩]

theorem roundHalfEven_intCast (n : ℤ) : roundHalfEven (n : ℚ) = n := by
  unfold roundHalfEven
  simp only [Int.floor_intCast, sub_self]
  norm_num

theorem roundHalfEven_nonneg {q : ℚ} (h : 0 ≤ q) : 0 ≤ roundHalfEven q := by
  have hf : 0 ≤ ⌊q⌋ := Int.floor_nonneg.mpr h
  unfold roundHalfEven
  dsimp only
  split_ifs <;> omega

theorem pyTrunc_of_nonneg {q : ℚ} (h : 0 ≤ q) : pyTrunc q = ⌊q⌋ := by
  unfold pyTrunc
  rw [if_neg (not_lt.mpr h)]

theorem pyTrunc_intCast (n : ℤ) : pyTrunc (n : ℚ) = n := by
  unfold pyTrunc
  split_ifs with h
  · rw [← Int.cast_neg, Int.floor_intCast]
    omega
  · exact Int.floor_intCast n

/-- Claim C2 is FALSE as stated, on two counts.  First, the claim says
`pace ≤ 0` renders "N/A", but the code only tests `pace == 0`: a negative
pace of −1 min/km renders as "-1:00".  Second, the claim describes the
seconds as "the fractional minute converted by rounding to the nearest
second (round-half-up)": for pace 5.05 that reading gives "5:03", but the
code first rounds the pace to ONE DECIMAL with ties-to-even (5.05 → 5.0)
and only then converts, yielding "5:00". -/
theorem claim_C2_counterexample :
    format_pace_minutes (some (-1)) = "-1:00" ∧
    format_pace_minutes (some (101/20)) = "5:00" := by
  with_unfolding_all decide

/-- Claim C2, amended: for every POSITIVE pace the result is `M:SS` where
`M` is nonnegative and `SS` is a nonnegative number of seconds below 60
agreeing exactly with the pace rounded to one decimal (so the seconds come
from the two-stage rounding `round(pace, 1)` then `round(frac*60)`, not
from a direct round-half-up of the raw fractional minute); pace `0` and an
undefined pace render as "N/A"; `format_pace(5.5) = "5:30"`. -/
theorem claim_C2_amended :
    (∀ p : ℚ, 0 < p → ∃ mins secs : ℤ, 0 ≤ mins ∧ 0 ≤ secs ∧ secs < 60 ∧
      ((mins * 60 + secs : ℤ) : ℚ) = pythonRound1 p * 60 ∧
      format_pace_minutes (some p) = toString mins ++ ":" ++ pad2 secs) ∧
    format_pace_minutes (some (11/2)) = "5:30" ∧
    format_pace_minutes (some 0) = "N/A" ∧
    format_pace_minutes none = "N/A" := by
  refine ⟨fun p hp => ?_, by with_unfolding_all decide,
    by with_unfolding_all decide, by with_unfolding_all decide⟩
  have hk0 : 0 ≤ roundHalfEven (p * 10) := roundHalfEven_nonneg (by positivity)
  obtain ⟨q, r, hdec, hr0, hrlt⟩ :
      ∃ q r : ℤ, roundHalfEven (p * 10) = 10 * q + r ∧ 0 ≤ r ∧ r < 10 :=
    ⟨roundHalfEven (p * 10) / 10, roundHalfEven (p * 10) % 10, by omega, by omega, by omega⟩
  have hq0 : 0 ≤ q := by omega
  have hp1 : pythonRound1 p = (q : ℚ) + (r : ℚ) / 10 := by
    rw [pythonRound1, hdec]
    push_cast
    ring
  have hple : 0 ≤ (q : ℚ) + (r : ℚ) / 10 :=
    add_nonneg (by exact_mod_cast hq0) (div_nonneg (by exact_mod_cast hr0) (by norm_num))
  have hfr : ⌊(r : ℚ) / 10⌋ = 0 := by
    rw [Int.floor_eq_zero_iff]
    constructor
    · exact div_nonneg (by exact_mod_cast hr0) (by norm_num)
    · rw [div_lt_one (by norm_num)]
      exact_mod_cast hrlt
  have htr : pyTrunc (pythonRound1 p) = q := by
    rw [hp1, pyTrunc_of_nonneg hple, Int.floor_int_add, hfr]
    omega
  have hsec : roundHalfEven ((pythonRound1 p - (pyTrunc (pythonRound1 p) : ℚ)) * 60) = 6 * r := by
    rw [htr, hp1]
    have h6 : ((q : ℚ) + (r : ℚ) / 10 - (q : ℚ)) * 60 = ((6 * r : ℤ) : ℚ) := by
      push_cast
      ring
    rw [h6, roundHalfEven_intCast]
  have hred : format_pace_minutes (some p) =
      (if p = 0 then "N/A"
       else toString (pyTrunc (pythonRound1 p)) ++ ":" ++
         pad2 (roundHalfEven ((pythonRound1 p - (pyTrunc (pythonRound1 p) : ℚ)) * 60))) := rfl
  refine ⟨q, 6 * r, hq0, by omega, by omega, ?_, ?_⟩
  · rw [hp1]
    push_cast
    ring
  · rw [hred, if_neg (ne_of_gt hp), hsec, htr]

/-- Witness for C2 at pace 5.5. -/
theorem claim_C2_witness :
    ∃ mins secs : ℤ, 0 ≤ mins ∧ 0 ≤ secs ∧ secs < 60 ∧
      ((mins * 60 + secs : ℤ) : ℚ) = pythonRound1 (11/2) * 60 ∧
      format_pace_minutes (some (11/2)) = toString mins ++ ":" ++ pad2 secs :=
  claim_C2_amended.1 (11/2) (by norm_num)

/-- Claim C8 (confirmed): `format_minutes_hms` renders a positive number of
minutes as `H:MM:SS` — the minutes are first rounded to one decimal, then
converted to whole seconds with `int(... * 60)`, and the seconds decompose
exactly into hours, minutes below 60 and seconds below 60 by integer
division; zero or undefined minutes render as "0:00:00", and
`format_duration_hms(90) = "1:30:00"`. -/
theorem claim_C8_format :
    (∀ m : ℚ, 0 < m → ∃ hrs mins secs : ℤ, 0 ≤ hrs ∧ 0 ≤ mins ∧ mins < 60 ∧
      0 ≤ secs ∧ secs < 60 ∧
      hrs * 3600 + mins * 60 + secs = pyTrunc (pythonRound1 m * 60) ∧
      format_minutes_hms (some m) = toString hrs ++ ":" ++ pad2 mins ++ ":" ++ pad2 secs) ∧
    format_minutes_hms (some 90) = "1:30:00" ∧
    format_minutes_hms (some 0) = "0:00:00" ∧
    format_minutes_hms none = "0:00:00" := by
  refine ⟨fun m hm => ?_, by with_unfolding_all decide,
    by with_unfolding_all decide, by with_unfolding_all decide⟩
  have hk0 : 0 ≤ roundHalfEven (m * 10) := roundHalfEven_nonneg (by positivity)
  have hcast : pythonRound1 m * 60 = ((6 * roundHalfEven (m * 10) : ℤ) : ℚ) := by
    rw [pythonRound1]
    push_cast
    ring
  have hts : pyTrunc (pythonRound1 m * 60) = 6 * roundHalfEven (m * 10) := by
    rw [hcast, pyTrunc_intCast]
  have hred : format_minutes_hms (some m) =
      (if m = 0 then "0:00:00"
       else toString (pyTrunc (pythonRound1 m * 60) / 3600) ++ ":" ++
         pad2 (pyTrunc (pythonRound1 m * 60) % 3600 / 60) ++ ":" ++
         pad2 (pyTrunc (pythonRound1 m * 60) % 60)) := rfl
  refine ⟨6 * roundHalfEven (m * 10) / 3600,
    6 * roundHalfEven (m * 10) % 3600 / 60,
    6 * roundHalfEven (m * 10) % 60,
    by omega, by omega, by omega, by omega, by omega, ?_, ?_⟩
  · rw [hts]
    omega
  · rw [hred, if_neg (ne_of_gt hm), hts]

/-- Witness for C8 at 90 minutes. -/
theorem claim_C8_witness :
    ∃ hrs mins secs : ℤ, 0 ≤ hrs ∧ 0 ≤ mins ∧ mins < 60 ∧
      0 ≤ secs ∧ secs < 60 ∧
      hrs * 3600 + mins * 60 + secs = pyTrunc (pythonRound1 90 * 60) ∧
      format_minutes_hms (some 90) = toString hrs ++ ":" ++ pad2 mins ++ ":" ++ pad2 secs :=
  claim_C8_format.1 90 (by norm_num)

/-- Claim C7 (confirmed): `categorize_distance` uses strict upper bounds
`<5`, `<10`, `<21`, else the top bucket — each label is returned exactly on
its half-open interval — and on the boundary inputs 4.999 km is "Treino
leve" (Light), 5.0 km is "Curta" (Short), 20.999 km is "Médio" (Medium)
and 21.0 km is "Meia maratona" (HalfMarathonPlus). -/
theorem claim_C7_categorize :
    (∀ d : ℚ, categorize_distance d = "Treino leve (< 5km)" ↔ d < 5) ∧
    (∀ d : ℚ, categorize_distance d = "Curta (5-10km)" ↔ 5 ≤ d ∧ d < 10) ∧
    (∀ d : ℚ, categorize_distance d = "Médio (10-21km)" ↔ 10 ≤ d ∧ d < 21) ∧
    (∀ d : ℚ, categorize_distance d = "Meia maratona (> 21km)" ↔ 21 ≤ d) ∧
    categorize_distance (4999/1000) = "Treino leve (< 5km)" ∧
    categorize_distance 5 = "Curta (5-10km)" ∧
    categorize_distance (20999/1000) = "Médio (10-21km)" ∧
    categorize_distance 21 = "Meia maratona (> 21km)" := by
  refine ⟨fun d => ?_, fun d => ?_, fun d => ?_, fun d => ?_,
    by with_unfolding_all decide, by with_unfolding_all decide,
    by with_unfolding_all decide, by with_unfolding_all decide⟩ <;>
  · unfold categorize_distance
    split_ifs <;> simp_all <;>
      first
      | linarith
      | (intro h ; linarith)

/-- Witness for C7: a 3 km activity is categorized as "Treino leve". -/
theorem claim_C7_witness : categorize_distance 3 = "Treino leve (< 5km)" :=
  (claim_C7_categorize.1 3).mpr (by norm_num)

/-- Claim C6 (confirmed): on the spec's two-row scenario — `{date
2024-03-01, distance 5000 m, moving_time 1800 s}` and `{date 2024-03-05,
distance 0 m, moving_time 600 s}` — normalization derives `distance_km =
distance/1000` and `duration_min = moving_time/60`, validation drops the
zero-distance row, and exactly one record remains with `distance_km = 5`,
`duration_min = 30`, whose pace 30/5 = 6 formats as "6:00". -/
theorem claim_C6_scenario :
    (normalizeColumns scenarioTable).map (fun nt => (validate nt).rows) =
      Except.ok [⟨some ⟨2024, 3, 1⟩, some 5, some 30⟩] ∧
    format_pace_minutes (some (30/5)) = "6:00" := by
  with_unfolding_all decide

/-- Claim C3 is a code bug: when the year/month/day window leaves zero rows
the script does NOT signal an "empty selection" condition.  It proceeds
straight into `render_kpis`, whose `df_kpi["date"].min().strftime(...)`
(line 317) raises an uncaught `ValueError` ("NaTType does not support
strftime") on the empty selection, aborting the render with a traceback
instead of the graceful distinct condition the spec prescribes.  Here: a
table whose one activity is dated 2024-03-01, filtered by year 2023. -/
theorem claim_C3_no_empty_selection :
    df_filtered [⟨some ⟨2024, 3, 1⟩, some 10, some 60⟩] "2023" "Todos" "Todos" = [] ∧
    appRun marchTable "2023" "Todos" "Todos" =
      RenderOutcome.renderError "NaTType does not support strftime" := by
  with_unfolding_all decide

/-- Applying the same filter twice is the same as applying it once. -/
theorem filter_chain_idem1 {α : Type} (P : α → Bool) (l : List α) :
    (l.filter P).filter P = l.filter P := by
  simp only [List.filter_filter]
  refine List.filter_congr fun a _ => ?_
  cases P a <;> rfl

/-- Re-applying a two-filter chain is the same as applying it once. -/
theorem filter_chain_idem2 {α : Type} (P Q : α → Bool) (l : List α) :
    (((l.filter P).filter Q).filter P).filter Q = (l.filter P).filter Q := by
  simp only [List.filter_filter]
  refine List.filter_congr fun a _ => ?_
  cases P a <;> cases Q a <;> rfl

/-- Re-applying a three-filter chain is the same as applying it once. -/
theorem filter_chain_idem3 {α : Type} (P Q R : α → Bool) (l : List α) :
    (((((l.filter P).filter Q).filter R).filter P).filter Q).filter R =
      ((l.filter P).filter Q).filter R := by
  simp only [List.filter_filter]
  refine List.filter_congr fun a _ => ?_
  cases P a <;> cases Q a <;> cases R a <;> rfl

/-- Claim C9 (confirmed): the validity filter keeps exactly the rows with a
parseable date and — for each of `distance_km` and `duration_min`, when
that column is present — a positive cell; and it is idempotent:
re-validating an already validated table changes nothing. -/
theorem claim_C9_validate :
    (∀ (t : NormTable) (r : NormRow), r ∈ (validate t).rows ↔
      (r ∈ t.rows ∧ r.date.isSome = true ∧
       (t.hasDist = true → posCell r.distance_km = true) ∧
       (t.hasDur = true → posCell r.duration_min = true))) ∧
    (∀ t : NormTable, validate (validate t) = validate t) := by
  constructor
  · intro t r
    obtain ⟨rows, hd, hu⟩ := t
    cases hd <;> cases hu <;>
      simp [validate, validRowDate, List.mem_filter, and_assoc] <;> tauto
  · intro t
    obtain ⟨rows, hd, hu⟩ := t
    cases hd <;> cases hu
    · exact congrArg (fun l => NormTable.mk l false false)
        (filter_chain_idem1 validRowDate rows)
    · exact congrArg (fun l => NormTable.mk l false true)
        (filter_chain_idem2 validRowDate (fun r => posCell r.duration_min) rows)
    · exact congrArg (fun l => NormTable.mk l true false)
        (filter_chain_idem2 validRowDate (fun r => posCell r.distance_km) rows)
    · exact congrArg (fun l => NormTable.mk l true true)
        (filter_chain_idem3 validRowDate (fun r => posCell r.distance_km)
          (fun r => posCell r.duration_min) rows)

/-- Witness for C9: re-validating the validated two-activity table is a
no-op. -/
theorem claim_C9_witness :
    validate (validate ⟨paceRows, true, true⟩) = validate ⟨paceRows, true, true⟩ :=
  claim_C9_validate.2 ⟨paceRows, true, true⟩

/-- Claim C5 (confirmed): the window filter is three equality predicates on
the year, month and day of `date`, each a pass-through on "Todos"; they
compose conjunctively and commute pairwise, and filtering by a year
selector with month and day left at "Todos" equals filtering by that year
alone. -/
theorem claim_C5_window :
    (∀ (df : List NormRow) (s : String) (y : ℤ), s ≠ "Todos" → pyParseInt s = some y →
      df_filtered df s "Todos" "Todos" = df.filter (fun r => yearEqB r y)) ∧
    (∀ (df : List NormRow) (y m : ℤ),
      (df.filter (fun r => yearEqB r y)).filter (fun r => monthEqB r m) =
        (df.filter (fun r => monthEqB r m)).filter (fun r => yearEqB r y)) ∧
    (∀ (df : List NormRow) (y d : ℤ),
      (df.filter (fun r => yearEqB r y)).filter (fun r => dayEqB r d) =
        (df.filter (fun r => dayEqB r d)).filter (fun r => yearEqB r y)) ∧
    (∀ (df : List NormRow) (m d : ℤ),
      (df.filter (fun r => monthEqB r m)).filter (fun r => dayEqB r d) =
        (df.filter (fun r => dayEqB r d)).filter (fun r => monthEqB r m)) ∧
    (∀ (df : List NormRow) (sy sm sd : String) (y m d : ℤ),
      sy ≠ "Todos" → sm ≠ "Todos" → sd ≠ "Todos" →
      pyParseInt sy = some y → pyParseInt (monthField sm) = some m →
      pyParseInt sd = some d →
      df_filtered df sy sm sd =
        df.filter (fun r => yearEqB r y && (monthEqB r m && dayEqB r d))) := by
  refine ⟨?_, ?_, ?_, ?_, ?_⟩
  · intro df s y hs hp
    simp [df_filtered, windowSteps, yearStep, monthStep, dayStep, if_neg hs, hp,
      Except.bind]
  · intro df y m
    simp only [List.filter_filter]
    refine List.filter_congr fun r _ => ?_
    cases yearEqB r y <;> cases monthEqB r m <;> rfl
  · intro df y d
    simp only [List.filter_filter]
    refine List.filter_congr fun r _ => ?_
    cases yearEqB r y <;> cases dayEqB r d <;> rfl
  · intro df m d
    simp only [List.filter_filter]
    refine List.filter_congr fun r _ => ?_
    cases monthEqB r m <;> cases dayEqB r d <;> rfl
  · intro df sy sm sd y m d hsy hsm hsd hpy hpm hpd
    simp only [df_filtered, windowSteps, yearStep, monthStep, dayStep,
      if_neg hsy, if_neg hsm, if_neg hsd, hpy, hpm, hpd, Except.bind,
      List.filter_filter]
    refine List.filter_congr fun r _ => ?_
    cases yearEqB r y <;> cases monthEqB r m <;> cases dayEqB r d <;> rfl

/-- Witness for C5: on the two-activity collection, the year-2024 window
with month and day at "Todos" equals the plain year filter. -/
theorem claim_C5_witness :
    df_filtered paceRows "2024" "Todos" "Todos" =
      paceRows.filter (fun r => yearEqB r 2024) :=
  claim_C5_window.1 paceRows "2024" 2024 (by decide) (by with_unfolding_all decide)

/-- Claim C10 (confirmed): if any of the three selector values raises
during integer parsing, the `except` arm replaces the result with a copy
of the FULL validated collection — even filters already applied before the
failing one are discarded, and no error is reported. -/
theorem claim_C10_fallback :
    ∀ (df : List NormRow) (sy sm sd : String),
      ((sy ≠ "Todos" ∧ pyParseInt sy = none) ∨
       (sm ≠ "Todos" ∧ pyParseInt (monthField sm) = none) ∨
       (sd ≠ "Todos" ∧ pyParseInt sd = none)) →
      df_filtered df sy sm sd = df := by
  intro df sy sm sd h
  rcases h with ⟨hne, hp⟩ | ⟨hne, hp⟩ | ⟨hne, hp⟩
  · simp [df_filtered, windowSteps, yearStep, if_neg hne, hp, Except.bind]
  · cases hy : yearStep sy df with
    | error e => simp [df_filtered, windowSteps, hy, Except.bind]
    | ok d1 =>
      simp [df_filtered, windowSteps, hy, monthStep, if_neg hne, hp, Except.bind]
  · cases hy : yearStep sy df with
    | error e => simp [df_filtered, windowSteps, hy, Except.bind]
    | ok d1 =>
      cases hmn : monthStep sm d1 with
      | error e => simp [df_filtered, windowSteps, hy, hmn, Except.bind]
      | ok d2 =>
        simp [df_filtered, windowSteps, hy, hmn, dayStep, if_neg hne, hp, Except.bind]

/-- Witness for C10: with year "2024" (which would drop nothing here) and
the unparseable month selector "banana", the result is the full
collection. -/
theorem claim_C10_witness :
    df_filtered paceRows "2024" "banana" "Todos" = paceRows :=
  claim_C10_fallback paceRows "2024" "banana" "Todos"
    (Or.inr (Or.inl ⟨by decide, by with_unfolding_all decide⟩))

/-- Claim C1 is FALSE as stated: `pace_by_category` averages the PER-ROW
paces (each `duration_min/distance_km`, rounded to one decimal) within a
category, not the ratio-of-sums.  On two activities of the "Curta
(5-10km)" category — 5 km in 50 min (pace 10.0) and 8 km in 8 min (pace
1.0) — the code reports the mean 5.5 min/km, while the ratio-of-sums pace
of the category is 58/13 ≈ 4.46 min/km. -/
theorem claim_C1_counterexample :
    pace_by_category paceRows = some [("Curta (5-10km)", 11/2)] ∧
    sumDur paceRows / sumDist paceRows = 58/13 ∧
    ((11 : ℚ)/2 ≠ 58/13) := by
  with_unfolding_all decide

/-- Claim C1, amended: for every non-empty filtered collection, every pace
the category chart reports is the arithmetic MEAN of that category's
per-row paces `duration_min/distance_km` (each rounded to one decimal;
rows with zero distance excluded) — not the ratio-of-sums — and only
categories with at least one valid per-row pace appear. -/
theorem claim_C1_amended :
    ∀ (rows : List NormRow) (out : List (String × ℚ)) (c : String) (v : ℚ),
      pace_by_category rows = some out → (c, v) ∈ out →
      catPaceList rows c ≠ [] ∧
      v = (catPaceList rows c).sum / ((catPaceList rows c).length : ℚ) := by
  intro rows out c v hpb hmem
  unfold pace_by_category at hpb
  split_ifs at hpb with h1 h2
  have hout : finalCatPace rows = out := Option.some.inj hpb
  rw [← hout] at hmem
  unfold finalCatPace at hmem
  rw [List.mem_filterMap] at hmem
  obtain ⟨p, hpmem, hpeq⟩ := hmem
  obtain ⟨c2, w⟩ := p
  cases w with
  | none => simp at hpeq
  | some u =>
    simp only [Option.map_some] at hpeq
    have hc2 : c2 = c := congrArg Prod.fst (Option.some.inj hpeq)
    have hu : u = v := congrArg Prod.snd (Option.some.inj hpeq)
    subst hc2
    subst hu
    unfold sortedCatPace at hpmem
    rw [List.mem_insertionSort] at hpmem
    unfold groupedCatPace at hpmem
    rw [List.mem_map] at hpmem
    obtain ⟨c3, hc3mem, hc3eq⟩ := hpmem
    have hc3 : c3 = c2 := congrArg Prod.fst hc3eq
    subst hc3
    have hcm : catMean rows c3 = some u := congrArg Prod.snd hc3eq
    unfold catMean at hcm
    have hcm2 : (if (catPaceList rows c3).isEmpty = true then none
        else some ((catPaceList rows c3).sum / ((catPaceList rows c3).length : ℚ))) =
        some u := hcm
    split_ifs at hcm2 with hemp
    refine ⟨fun h => hemp (by rw [h]; rfl), ?_⟩
    exact (Option.some.inj hcm2).symm

/-- Witness for C1: the reported 5.5 min/km for "Curta (5-10km)" is the
mean of the rounded per-row paces of that category. -/
theorem claim_C1_witness :
    catPaceList paceRows "Curta (5-10km)" ≠ [] ∧
    (11 : ℚ)/2 = (catPaceList paceRows "Curta (5-10km)").sum /
      ((catPaceList paceRows "Curta (5-10km)").length : ℚ) :=
  claim_C1_amended paceRows [("Curta (5-10km)", 11/2)] "Curta (5-10km)" (11/2)
    (by with_unfolding_all decide) (by with_unfolding_all decide)

/-- Claim C4 is FALSE as stated on one point: the displayed KPI values are
ROUNDED to one decimal, so they can differ from the exact count/sum
formulas the claim asserts.  Two activities of 1.23 km each sum to
2.46 km, but the distance KPI shows 2.5. -/
theorem claim_C4_counterexample :
    render_kpis ⟨kpiRows, true, true⟩ =
      Except.ok ⟨2, some (5/2), some 1, "24:24"⟩ ∧
    sumDist kpiRows = 123/50 ∧ ((5 : ℚ)/2 ≠ 123/50) := by
  with_unfolding_all decide

/-- Claim C4, amended: on a validated windowed table with both columns
present and a positive distance sum, the headline KPIs are the activity
count, the ONE-DECIMAL ROUNDINGS of the distance sum and of the duration
sum divided by 60, and the pace formatted from the one-decimal rounding of
total duration / total distance (ratio-of-sums, never a mean of per-row
paces).  In every other reachable case the pace shows "N/A": when the
distance column is absent (the distance KPI is then `None` too), when the
duration column is absent (the duration KPI is then `None`), and when both
columns are present but the distance sum is not positive. -/
theorem claim_C4_amended :
    (∀ t : NormTable, t.hasDist = true → t.hasDur = true →
      t.rows.filterMap NormRow.date ≠ [] → 0 < sumDist t.rows →
      render_kpis t = Except.ok ⟨t.rows.length, some (pythonRound1 (sumDist t.rows)),
        some (pythonRound1 (sumDur t.rows / 60)),
        format_pace_minutes (some (pythonRound1 (sumDur t.rows / sumDist t.rows)))⟩) ∧
    (∀ t : NormTable, t.hasDist = false → t.rows.filterMap NormRow.date ≠ [] →
      render_kpis t = Except.ok ⟨t.rows.length, none,
        (if t.hasDur = true then some (pythonRound1 (sumDur t.rows / 60)) else none),
        "N/A"⟩) ∧
    (∀ t : NormTable, t.hasDist = true → t.hasDur = false →
      t.rows.filterMap NormRow.date ≠ [] →
      render_kpis t = Except.ok ⟨t.rows.length, some (pythonRound1 (sumDist t.rows)),
        none, "N/A"⟩) ∧
    (∀ t : NormTable, t.hasDist = true → t.hasDur = true →
      t.rows.filterMap NormRow.date ≠ [] → ¬ 0 < sumDist t.rows →
      render_kpis t = Except.ok ⟨t.rows.length, some (pythonRound1 (sumDist t.rows)),
        some (pythonRound1 (sumDur t.rows / 60)), "N/A"⟩) := by
  refine ⟨?_, ?_, ?_, ?_⟩
  · intro t hd hu hdate hpos
    unfold render_kpis
    cases hdl : t.rows.filterMap NormRow.date with
    | nil => exact absurd hdl hdate
    | cons a l =>
      simp only [hd, hu, hdl]
      simp [hpos]
  · intro t hd hdate
    unfold render_kpis
    cases hdl : t.rows.filterMap NormRow.date with
    | nil => exact absurd hdl hdate
    | cons a l =>
      simp only [hd, hdl]
      cases hu : t.hasDur <;> simp [hu]
  · intro t hd hu hdate
    unfold render_kpis
    cases hdl : t.rows.filterMap NormRow.date with
    | nil => exact absurd hdl hdate
    | cons a l =>
      simp only [hd, hu, hdl]
      simp
  · intro t hd hu hdate hnpos
    unfold render_kpis
    cases hdl : t.rows.filterMap NormRow.date with
    | nil => exact absurd hdl hdate
    | cons a l =>
      simp only [hd, hu, hdl]
      simp [hnpos]

/-- Witness for C4 on the two-activity table: the KPIs are the rounded
aggregate formulas. -/
theorem claim_C4_witness :
    render_kpis ⟨kpiRows, true, true⟩ = Except.ok ⟨kpiRows.length,
      some (pythonRound1 (sumDist kpiRows)),
      some (pythonRound1 (sumDur kpiRows / 60)),
      format_pace_minutes (some (pythonRound1 (sumDur kpiRows / sumDist kpiRows)))⟩ :=
  claim_C4_amended.1 ⟨kpiRows, true, true⟩ rfl rfl
    (by with_unfolding_all decide) (by with_unfolding_all decide)
